import Mathlib

/-!
Verification development for the RGB++ lock script
(`src/contracts/rgbpp-lock/src/main.rs`).

The script validates a cross-chain spend: a CKB cell guarded by the RGB++
lock may be consumed only when the spender shows a Bitcoin transaction that
consumes the sealed UTXO, proves that transaction's inclusion through a
light client, and embeds a commitment to a declared prefix of the CKB
transaction.

What is embedded directly from the source file: `verify_outputs`,
`load_unlock`, `fetch_unlock_from_witness`, `verify_unlock` and
`check_btc_tx_commitment`, together with the UTXO-seal scan that
`verify_unlock` inlines.  External collaborators (the SHA-256 function,
the molecule serializer for a whole `CellOutput`, the commitment
extractor and the light-client oracle) are fields of an `Env` record, so
every theorem holds for all of their implementations.  Helpers of this
repository that live outside the embedded file (the molecule schemas, the
`rgbpp_core` predicates) are modelled from the spec and carry a doc
comment saying so.
-/

namespace RGBPP

/-- A byte value. -/
abbrev Byte := Fin 256

/-- A byte string. -/
abbrev Bytes := List Byte

/-- The 32 zero bytes, `Byte32::default()` in the source. -/
def zero32 : Bytes := List.replicate 32 (0 : Byte)

/-- Little-endian interpretation of a byte string as a natural number. -/
def leNum : Bytes → Nat
  | [] => 0
  | b :: bs => b.val + 256 * leNum bs

/-- Truncate a natural number to one byte. -/
def u8byte (n : Nat) : Byte := ⟨n % 256, by omega⟩

/-- `u16::to_le_bytes`: two little-endian bytes. -/
def u16LE (n : Nat) : Bytes := [u8byte n, u8byte (n / 256)]

/-- `u32::to_le_bytes`: four little-endian bytes. -/
def u32LE (n : Nat) : Bytes :=
  [u8byte n, u8byte (n / 256), u8byte (n / 256 ^ 2), u8byte (n / 256 ^ 3)]

/-- A CKB script: code hash, hash type and args. -/
structure Script where
  code_hash : Bytes
  hash_type : Nat
  args : Bytes
deriving DecidableEq

/-- A CKB out point: transaction hash and output index. -/
structure OutPoint where
  tx_hash : Bytes
  index : Nat
deriving DecidableEq

/-- Canonical (molecule struct) serialization of an `OutPoint`:
the 32-byte transaction hash followed by the 4-byte little-endian index.
This is the byte string `input.previous_output().as_slice()` feeds to the
hasher in `check_btc_tx_commitment`. -/
def OutPoint.serialize (op : OutPoint) : Bytes := op.tx_hash ++ u32LE op.index

/-- A CKB transaction input; only its previous out point matters here. -/
structure CellInput where
  since : Nat
  previous_output : OutPoint
deriving DecidableEq

/-- A CKB transaction output: capacity, lock script and optional type script. -/
structure CellOutput where
  capacity : Nat
  lock : Script
  type_ : Option Script
deriving DecidableEq

/-- A Bitcoin transaction input, reduced to its previous output
`(txid, vout)` pair as in `rgbpp_core::bitcoin::BTCTx`. -/
structure TxIn where
  previous_output : Bytes × Nat
deriving DecidableEq

/-- A parsed Bitcoin transaction: its txid and its inputs. -/
structure BTCTx where
  txid : Bytes
  inputs : List TxIn
deriving DecidableEq

/-- Modelled from the spec (schemas crate not under `src/`):
`LockArgs = {btc_txid: 32-byte hash, out_index: uint32}`, the args of the
RGB++ lock script. -/
structure RGBPPLock where
  btc_txid : Bytes
  out_index : Nat
deriving DecidableEq

/-- Modelled from the spec: canonical 36-byte serialization of `RGBPPLock`,
txid first, then the little-endian out index. -/
def RGBPPLock.serialize (la : RGBPPLock) : Bytes := la.btc_txid ++ u32LE la.out_index

/-- Modelled from the spec: `RGBPPLock::from_slice`, succeeding exactly on
36-byte strings. -/
def RGBPPLock.fromSlice (bs : Bytes) : Option RGBPPLock :=
  if bs.length = 36 then some ⟨bs.take 32, leNum (bs.drop 32)⟩ else none

/-- Modelled from the spec (schemas crate not under `src/`):
`TimeLockArgs = {btc_txid: 32-byte hash, after: delay parameter}`, the args
of the BTC time lock script. -/
structure BTCTimeLock where
  btc_txid : Bytes
  after : Nat
deriving DecidableEq

/-- Modelled from the spec: canonical 36-byte serialization of `BTCTimeLock`,
txid first, then the little-endian delay parameter. -/
def BTCTimeLock.serialize (la : BTCTimeLock) : Bytes := la.btc_txid ++ u32LE la.after

/-- Modelled from the spec: `BTCTimeLock::from_slice`, succeeding exactly on
36-byte strings. -/
def BTCTimeLock.fromSlice (bs : Bytes) : Option BTCTimeLock :=
  if bs.length = 36 then some ⟨bs.take 32, leNum (bs.drop 32)⟩ else none

/-- Modelled from the spec: the configuration cell, holding the light-client
type hash and the time-lock script identity. -/
structure RGBPPConfig where
  btc_lc_type_hash : Bytes
  btc_time_lock_type_hash : Bytes
deriving DecidableEq

/-- Modelled from the spec: the unlock witness
`{version: uint16, extra_data: {input_len, output_len}, btc_tx, btc_tx_proof}`
with `extra_data` flattened. -/
structure RGBPPUnlock where
  version : Nat
  input_len : Nat
  output_len : Nat
  btc_tx : Bytes
  btc_tx_proof : Bytes
deriving DecidableEq

/-- Modelled from the spec: `RGBPPUnlock::from_slice` over the encoding
version (2 bytes LE) ++ input_len ++ output_len ++ btc_tx length (4 bytes
LE) ++ btc_tx ++ btc_tx_proof; fails on strings too short for their
declared lengths. -/
def RGBPPUnlock.fromSlice (bs : Bytes) : Option RGBPPUnlock :=
  if 8 ≤ bs.length then
    let n := leNum ((bs.drop 4).take 4)
    if 8 + n ≤ bs.length then
      some ⟨leNum (bs.take 2), leNum ((bs.drop 2).take 1), leNum ((bs.drop 3).take 1),
            (bs.drop 8).take n, bs.drop (8 + n)⟩
    else none
  else none

/-- A witness-args record; only the `lock` field is read by the script. -/
structure WitnessArgs where
  lock : Option Bytes
deriving DecidableEq

/-- The error codes of `rgbpp_core::error::Error` that the embedded code can
produce, plus a family of externally raised codes the oracle may return. -/
inductive Error where
  | BadRGBPPLock
  | BadRGBPPUnlock
  | BadBTCTimeLock
  | ItemMissing
  | IndexOutOfBound
  | UtxoSealMismatch
  | BadBtcCommitment
  | UnknownCommitmentVersion
  | CommitmentMismatch
  | OutputCellWithUnknownLock
  | External (code : Nat)
deriving DecidableEq

deriving instance DecidableEq for Except

/-- The external collaborators of the script, kept abstract: the SHA-256
digest, the molecule serializer for a whole `CellOutput`
(`output.as_slice()`), the commitment extractor over the Bitcoin
transaction, and the light-client oracle
`check_btc_tx_exists (lc_type_hash, txid, min_confirmations, proof)`. -/
structure Env where
  sha256 : Bytes → Bytes
  serializeOutput : CellOutput → Bytes
  extract_commitment : BTCTx → Option Bytes
  check_btc_tx_exists : Bytes → Bytes → Nat → Bytes → Except Error Unit

/-- The read-only view of the spending CKB transaction: its inputs, the type
hashes of the cells those inputs consume (`load_cell_type_hash` over
`Source::Input`), its outputs and the parallel output data. -/
structure CkbTxView where
  inputs : List CellInput
  input_type_hashes : List (Option Bytes)
  outputs : List CellOutput
  outputs_data : List Bytes
deriving DecidableEq

/-- `rgbpp_core::utils::is_script_code_equal` (not under `src/`), per spec
4.1: code-identity fields equal, args ignored. -/
def is_script_code_equal (a b : Script) : Bool :=
  decide (a.code_hash = b.code_hash ∧ a.hash_type = b.hash_type)

/-- Modelled from the spec: `rgbpp_core::rgbpp::is_btc_time_lock` (not under
`src/`), true when the lock's code identity matches the configured
time-lock fallback. -/
def is_btc_time_lock (config : RGBPPConfig) (lock : Script) : Bool :=
  decide (lock.code_hash = config.btc_time_lock_type_hash ∧ lock.hash_type = 1)

/-- Modelled from the spec: the minimum delay for the time-locked exit. -/
def MIN_BTC_TIME_LOCK_AFTER : Nat := 6

/-- The UTXO seal scan: true iff some Bitcoin input's previous output equals
`(lock_args.btc_txid, lock_args.out_index)`.  This is the expression
inlined in `verify_unlock` (main.rs lines 164-168) and, per spec 4.3, also
the body of `rgbpp_core::rgbpp::check_utxo_seal` used by
`verify_outputs`. -/
def check_utxo_seal (la : RGBPPLock) (btc_tx : BTCTx) : Bool :=
  btc_tx.inputs.any fun txin =>
    decide (txin.previous_output = (la.btc_txid, la.out_index))

/-- Modelled from the spec: `rgbpp_core::rgbpp::check_btc_time_lock` (not
under `src/`): the time-locked exit's outpoint is sealed in the Bitcoin
transaction and its delay parameter meets the minimum. -/
def check_btc_time_lock (la : BTCTimeLock) (btc_tx : BTCTx) (min_after : Nat) : Bool :=
  decide (min_after ≤ la.after) &&
    btc_tx.inputs.any fun txin => decide (txin.previous_output.fst = la.btc_txid)

/-- The time-lock fallthrough of the `verify_outputs` loop body
(main.rs lines 97-107): try the BTC time lock, else reject with
`OutputCellWithUnknownLock`. -/
def check_time_lock_branch (config : RGBPPConfig) (btc_tx : BTCTx) (lock : Script) :
    Except Error Unit :=
  if is_btc_time_lock config lock then
    match BTCTimeLock.fromSlice lock.args with
    | none => .error .BadBTCTimeLock
    | some la =>
      if check_btc_time_lock la btc_tx MIN_BTC_TIME_LOCK_AFTER then .ok ()
      else .error .OutputCellWithUnknownLock
  else .error .OutputCellWithUnknownLock

/-- One iteration of the `verify_outputs` loop (main.rs lines 80-108):
outputs without a type script are skipped; typed outputs must be re-sealed
under the RGB++ lock or parked behind a valid time lock. -/
def verify_output_cell (config : RGBPPConfig) (rgbpp_lock : Script) (btc_tx : BTCTx)
    (output : CellOutput) : Except Error Unit :=
  match output.type_ with
  | none => .ok ()
  | some _ =>
    if is_script_code_equal output.lock rgbpp_lock then
      match RGBPPLock.fromSlice output.lock.args with
      | none => .error .BadRGBPPLock
      | some la =>
        if check_utxo_seal la btc_tx then .ok ()
        else check_time_lock_branch config btc_tx output.lock
    else check_time_lock_branch config btc_tx output.lock

/-- The `verify_outputs` loop over a list of outputs, stopping at the first
failure. -/
def verify_outputs_list (config : RGBPPConfig) (rgbpp_lock : Script) (btc_tx : BTCTx) :
    List CellOutput → Except Error Unit
  | [] => .ok ()
  | o :: rest =>
    match verify_output_cell config rgbpp_lock btc_tx o with
    | .ok _ => verify_outputs_list config rgbpp_lock btc_tx rest
    | .error e => .error e

/-- `verify_outputs` (main.rs lines 78-110). -/
def verify_outputs (config : RGBPPConfig) (rgbpp_lock : Script) (btc_tx : BTCTx)
    (tx : CkbTxView) : Except Error Unit :=
  verify_outputs_list config rgbpp_lock btc_tx tx.outputs

/-- `load_unlock` (main.rs lines 112-122), with `load_witness_args` reading
from the given list of witness records for the whole input set. -/
def load_unlock (witnesses : List WitnessArgs) (index : Nat) : Except Error RGBPPUnlock :=
  match witnesses[index]? with
  | none => .error .IndexOutOfBound
  | some wa =>
    match wa.lock with
    | some args =>
      match RGBPPUnlock.fromSlice args with
      | none => .error .BadRGBPPUnlock
      | some u => .ok u
    | none => .error .ItemMissing

/-- `fetch_unlock_from_witness` (main.rs lines 131-152): read the witness of
group input 0; a 4-byte lock field redirects (as a little-endian index)
into the whole input set's witnesses, any other present lock field is
parsed directly as an `RGBPPUnlock`. -/
def fetch_unlock_from_witness (group_witnesses : List WitnessArgs)
    (input_witnesses : List WitnessArgs) : Except Error RGBPPUnlock :=
  match group_witnesses[0]? with
  | none => .error .IndexOutOfBound
  | some wa =>
    match wa.lock with
    | some args =>
      if args.length = 4 then
        load_unlock input_witnesses (leNum args)
      else
        match RGBPPUnlock.fromSlice args with
        | none => .error .BadRGBPPUnlock
        | some u => .ok u
    | none => .error .ItemMissing

/-- The exclusivity check over inputs (main.rs lines 198-201): every input
cell past the first `input_len` must carry no type script. -/
def inputs_are_committed (tx : CkbTxView) (input_len : Nat) : Bool :=
  (tx.input_type_hashes.drop input_len).all fun th => th.isNone

/-- The exclusivity check over outputs (main.rs lines 203-208): every output
past the first `output_len` must carry no type script. -/
def outputs_are_committed (tx : CkbTxView) (output_len : Nat) : Bool :=
  (tx.outputs.drop output_len).all fun o => o.type_.isNone

/-- Lock normalization inside the digest loop (main.rs lines 224-245): a
time-lock or RGB++ output's lock args are re-serialized with the embedded
txid zeroed; any other lock is left unchanged.  The time-lock branch is
tested first, and a parse failure aborts with the corresponding error. -/
def normalize_output (config : RGBPPConfig) (rgbpp_script : Script) (output : CellOutput) :
    Except Error CellOutput :=
  if is_btc_time_lock config output.lock then
    match BTCTimeLock.fromSlice output.lock.args with
    | none => .error .BadBTCTimeLock
    | some la =>
      .ok { output with lock := { output.lock with args := BTCTimeLock.serialize { la with btc_txid := zero32 } } }
  else if is_script_code_equal rgbpp_script output.lock then
    match RGBPPLock.fromSlice output.lock.args with
    | none => .error .BadRGBPPLock
    | some la =>
      .ok { output with lock := { output.lock with args := RGBPPLock.serialize { la with btc_txid := zero32 } } }
  else .ok output

/-- The bytes the digest loop feeds to the hasher for a list of
(output, data) pairs (main.rs lines 218-250): each normalized output's
serialization, then the data length as 4 little-endian bytes, then the
data. -/
def outputs_digest_bytes (env : Env) (config : RGBPPConfig) (rgbpp_script : Script) :
    List (CellOutput × Bytes) → Except Error Bytes
  | [] => .ok []
  | (output, data) :: rest =>
    match normalize_output config rgbpp_script output with
    | .error e => .error e
    | .ok o2 =>
      match outputs_digest_bytes env config rgbpp_script rest with
      | .error e => .error e
      | .ok bs => .ok (env.serializeOutput o2 ++ u32LE data.length ++ data ++ bs)

/-- The bytes the digest loop feeds to the hasher for the first `input_len`
inputs (main.rs lines 215-217): each previous out point's serialization. -/
def inputs_digest_bytes (inputs : List CellInput) (input_len : Nat) : Bytes :=
  ((inputs.take input_len).map fun i => i.previous_output.serialize).flatten

/-- The 5-byte domain tag `b"RGB++"`. -/
def RGBPP_TAG : Bytes := [82, 71, 66, 43, 43]

/-- The full byte stream hashed by `check_btc_tx_commitment`
(main.rs lines 211-250), in the order of the `hasher.update` calls. -/
def commitment_stream (env : Env) (config : RGBPPConfig) (rgbpp_script : Script)
    (uw : RGBPPUnlock) (tx : CkbTxView) : Except Error Bytes :=
  match outputs_digest_bytes env config rgbpp_script
      ((tx.outputs.zip tx.outputs_data).take uw.output_len) with
  | .error e => .error e
  | .ok os =>
    .ok (RGBPP_TAG ++ u16LE uw.version ++ [u8byte uw.input_len, u8byte uw.output_len]
      ++ inputs_digest_bytes tx.inputs uw.input_len ++ os)

/-- The double-hashed digest recomputed from the CKB transaction
(main.rs lines 252-253). -/
def recomputed_commitment (env : Env) (config : RGBPPConfig) (rgbpp_script : Script)
    (uw : RGBPPUnlock) (tx : CkbTxView) : Except Error Bytes :=
  match commitment_stream env config rgbpp_script uw tx with
  | .error e => .error e
  | .ok s => .ok (env.sha256 (env.sha256 s))

/-- `check_btc_tx_commitment` (main.rs lines 180-255). -/
def check_btc_tx_commitment (env : Env) (config : RGBPPConfig) (rgbpp_script : Script)
    (btc_tx : BTCTx) (tx : CkbTxView) (uw : RGBPPUnlock) : Except Error Unit :=
  match env.extract_commitment btc_tx with
  | none => .error .BadBtcCommitment
  | some btc_commitment =>
    if uw.version = 0 then
      if uw.input_len = 0 then .error .BadBtcCommitment
      else if uw.output_len = 0 then .error .BadBtcCommitment
      else if inputs_are_committed tx uw.input_len then
        if outputs_are_committed tx uw.output_len then
          match commitment_stream env config rgbpp_script uw tx with
          | .error e => .error e
          | .ok s =>
            if env.sha256 (env.sha256 s) = btc_commitment then .ok ()
            else .error .CommitmentMismatch
        else .error .CommitmentMismatch
      else .error .CommitmentMismatch
    else .error .UnknownCommitmentVersion

/-- `verify_unlock` (main.rs lines 155-178): seal scan, then the
light-client oracle, then the commitment check. -/
def verify_unlock (env : Env) (config : RGBPPConfig) (rgbpp_script : Script)
    (lock_args : RGBPPLock) (unlock_witness : RGBPPUnlock) (btc_tx : BTCTx)
    (tx : CkbTxView) : Except Error Unit :=
  if check_utxo_seal lock_args btc_tx then
    match env.check_btc_tx_exists config.btc_lc_type_hash btc_tx.txid 0
        unlock_witness.btc_tx_proof with
    | .error e => .error e
    | .ok _ => check_btc_tx_commitment env config rgbpp_script btc_tx tx unlock_witness
  else .error .UtxoSealMismatch

/-- Stated from the spec's wording (§4.1): `normalizeLockArgs` — if the
lock's code matches the time-lock fallback or the cross-chain lock, parse
its arguments, overwrite the embedded txid with zero and rebuild the lock;
otherwise return the lock unchanged.  Used only to compare with the
source-derived `normalize_output`. -/
def normalize_lock_spec (config : RGBPPConfig) (rgbpp_script : Script) (lock : Script) :
    Except Error Script :=
  if is_btc_time_lock config lock then
    match BTCTimeLock.fromSlice lock.args with
    | none => .error .BadBTCTimeLock
    | some la => .ok { lock with args := BTCTimeLock.serialize { la with btc_txid := zero32 } }
  else if is_script_code_equal rgbpp_script lock then
    match RGBPPLock.fromSlice lock.args with
    | none => .error .BadRGBPPLock
    | some la => .ok { lock with args := RGBPPLock.serialize { la with btc_txid := zero32 } }
  else .ok lock

/-- Stated from the spec's wording (§4.4 step 4): for each (output, data)
pair, the output serialized after replacing its lock with the normalized
lock, followed by the data's byte length as 4 little-endian bytes and the
data bytes. -/
def spec_output_parts (env : Env) (config : RGBPPConfig) (rgbpp_script : Script) :
    List (CellOutput × Bytes) → Except Error (List Bytes)
  | [] => .ok []
  | (output, data) :: rest =>
    match normalize_lock_spec config rgbpp_script output.lock with
    | .error e => .error e
    | .ok lock2 =>
      match spec_output_parts env config rgbpp_script rest with
      | .error e => .error e
      | .ok parts =>
        .ok ((env.serializeOutput { output with lock := lock2 } ++ u32LE data.length ++ data) :: parts)

/-- Stated from the spec's wording (§4.4 step 4): the digest input stream —
the 5-byte domain tag, the version as 2 little-endian bytes, `input_len`
then `output_len` as single bytes, the canonical previous-output
serialization of the first `input_len` inputs, then the per-output parts
for the first `output_len` (output, data) pairs. -/
def commitment_stream_spec (env : Env) (config : RGBPPConfig) (rgbpp_script : Script)
    (uw : RGBPPUnlock) (tx : CkbTxView) : Except Error Bytes :=
  match spec_output_parts env config rgbpp_script
      ((tx.outputs.zip tx.outputs_data).take uw.output_len) with
  | .error e => .error e
  | .ok parts =>
    .ok (RGBPP_TAG ++ u16LE uw.version ++ [u8byte uw.input_len, u8byte uw.output_len]
      ++ ((tx.inputs.take uw.input_len).map fun i => i.previous_output.serialize).flatten
      ++ parts.flatten)

lemma normalize_output_eq_spec (config : RGBPPConfig) (rgbpp_script : Script)
    (output : CellOutput) :
    normalize_output config rgbpp_script output =
      match normalize_lock_spec config rgbpp_script output.lock with
      | .error e => .error e
      | .ok lock2 => .ok { output with lock := lock2 } := by
  unfold normalize_output normalize_lock_spec
  split
  · cases BTCTimeLock.fromSlice output.lock.args <;> rfl
  · split
    · cases RGBPPLock.fromSlice output.lock.args <;> rfl
    · rfl

lemma outputs_digest_bytes_eq_spec (env : Env) (config : RGBPPConfig) (rgbpp_script : Script)
    (l : List (CellOutput × Bytes)) :
    outputs_digest_bytes env config rgbpp_script l =
      match spec_output_parts env config rgbpp_script l with
      | .error e => .error e
      | .ok parts => .ok parts.flatten := by
  induction l with
  | nil => rfl
  | cons p rest ih =>
    obtain ⟨output, data⟩ := p
    unfold outputs_digest_bytes spec_output_parts
    rw [ih, normalize_output_eq_spec]
    cases normalize_lock_spec config rgbpp_script output.lock with
    | error e => rfl
    | ok lock2 =>
      cases spec_output_parts env config rgbpp_script rest with
      | error e => rfl
      | ok parts => simp [List.append_assoc]

lemma commitment_stream_eq_spec (env : Env) (config : RGBPPConfig) (rgbpp_script : Script)
    (uw : RGBPPUnlock) (tx : CkbTxView) :
    commitment_stream env config rgbpp_script uw tx =
      commitment_stream_spec env config rgbpp_script uw tx := by
  unfold commitment_stream commitment_stream_spec inputs_digest_bytes
  rw [outputs_digest_bytes_eq_spec]
  cases spec_output_parts env config rgbpp_script
      ((tx.outputs.zip tx.outputs_data).take uw.output_len) with
  | error e => rfl
  | ok parts => rfl

/-- C1: an accepted spend's recomputed commitment is the double SHA-256 of
the byte stream assembled in the spec's exact order (tag, version LE16,
input_len, output_len, canonical previous-output references of the first
`input_len` inputs, then per (output, data) pair the normalized output's
serialization, the 4-byte LE data length and the data), and
`check_btc_tx_commitment` succeeds only when that digest equals the
commitment extracted from the Bitcoin transaction — a mismatch yields
`CommitmentMismatch`. -/
theorem commitment_digest_exact_stream (env : Env) (config : RGBPPConfig)
    (rgbpp_script : Script) (btc_tx : BTCTx) (tx : CkbTxView) (uw : RGBPPUnlock) :
    (check_btc_tx_commitment env config rgbpp_script btc_tx tx uw = .ok () →
      ∃ s, commitment_stream_spec env config rgbpp_script uw tx = .ok s ∧
        env.extract_commitment btc_tx = some (env.sha256 (env.sha256 s))) ∧
    (∀ c s, env.extract_commitment btc_tx = some c → uw.version = 0 →
      uw.input_len ≠ 0 → uw.output_len ≠ 0 →
      inputs_are_committed tx uw.input_len = true →
      outputs_are_committed tx uw.output_len = true →
      commitment_stream_spec env config rgbpp_script uw tx = .ok s →
      env.sha256 (env.sha256 s) ≠ c →
      check_btc_tx_commitment env config rgbpp_script btc_tx tx uw =
        .error .CommitmentMismatch) := by
  constructor
  · intro h
    unfold check_btc_tx_commitment at h
    split at h
    · exact Except.noConfusion h
    next c hext =>
      split at h
      · split at h
        · exact Except.noConfusion h
        · split at h
          · exact Except.noConfusion h
          · split at h
            · split at h
              · split at h
                next e hstream => exact Except.noConfusion h
                next s hstream =>
                  split at h
                  next hsha =>
                    refine ⟨s, ?_, ?_⟩
                    · rw [← commitment_stream_eq_spec]; exact hstream
                    · rw [hext, hsha]
                  next hsha => exact Except.noConfusion h
              · exact Except.noConfusion h
            · exact Except.noConfusion h
      · exact Except.noConfusion h
  · intro c s hext hv hil hol hic hoc hs hne
    unfold check_btc_tx_commitment
    simp only [hext]
    rw [if_pos hv, if_neg hil, if_neg hol, if_pos hic, if_pos hoc,
      commitment_stream_eq_spec, hs]
    exact if_neg hne

/-- Concrete lock used in witnesses: unrelated to both special locks. -/
def lockW : Script := ⟨[], 0, []⟩

/-- Concrete config used in witnesses. -/
def configW : RGBPPConfig := ⟨[1], [3]⟩

/-- Concrete RGB++ lock script used in witnesses. -/
def rgbppScriptW : Script := ⟨[9], 0, []⟩

/-- Concrete CKB transaction view used in witnesses: one input consuming a
typeless cell, one typeless output with empty data. -/
def txW : CkbTxView := ⟨[⟨0, ⟨zero32, 0⟩⟩], [none], [⟨0, lockW, none⟩], [[]]⟩

/-- Concrete unlock witness used in witnesses: version 0, both lengths 1. -/
def uwW : RGBPPUnlock := ⟨0, 1, 1, [], []⟩

/-- Concrete Bitcoin transaction used in witnesses. -/
def btcTxW : BTCTx := ⟨[], []⟩

/-- The digest stream of `txW` under `uwW`. -/
def streamW : Bytes :=
  RGBPP_TAG ++ u16LE 0 ++ [u8byte 1, u8byte 1] ++ zero32 ++ u32LE 0 ++ u32LE 0

/-- Concrete environment used in witnesses: identity hash, empty output
serialization, an extractor returning `streamW`, an oracle that accepts. -/
def envW : Env :=
  { sha256 := fun bs => bs
    serializeOutput := fun _ => []
    extract_commitment := fun _ => some streamW
    check_btc_tx_exists := fun _ _ _ _ => .ok () }

theorem commitment_digest_exact_stream_witness :
    ∃ s, commitment_stream_spec envW configW rgbppScriptW uwW txW = .ok s ∧
      envW.extract_commitment btcTxW = some (envW.sha256 (envW.sha256 s)) :=
  (commitment_digest_exact_stream envW configW rgbppScriptW btcTxW txW uwW).left (by rfl)

/-- C3: the UTXO seal scan is true iff the exact `(txid, index)` pair occurs
among the Bitcoin transaction's inputs; it is invariant under permutation
of the inputs and unaffected by adding an input whose previous output
differs from that pair. -/
theorem check_utxo_seal_characterization (la : RGBPPLock) (btc_tx : BTCTx) :
    (check_utxo_seal la btc_tx = true ↔
      ∃ txin ∈ btc_tx.inputs, txin.previous_output = (la.btc_txid, la.out_index)) ∧
    (∀ btc_tx2 : BTCTx, btc_tx.inputs.Perm btc_tx2.inputs →
      check_utxo_seal la btc_tx = check_utxo_seal la btc_tx2) ∧
    (∀ txin : TxIn, txin.previous_output ≠ (la.btc_txid, la.out_index) →
      check_utxo_seal la ⟨btc_tx.txid, txin :: btc_tx.inputs⟩ = check_utxo_seal la btc_tx) := by
  refine ⟨?_, ?_, ?_⟩
  · unfold check_utxo_seal
    simp
  · intro btc_tx2 hperm
    unfold check_utxo_seal
    rw [Bool.eq_iff_iff]
    simp only [List.any_eq_true, decide_eq_true_eq]
    constructor
    · rintro ⟨x, hx, hd⟩
      exact ⟨x, hperm.mem_iff.mp hx, hd⟩
    · rintro ⟨x, hx, hd⟩
      exact ⟨x, hperm.mem_iff.mpr hx, hd⟩
  · intro txin hne
    unfold check_utxo_seal
    simp [hne]

/-- Witness data: lock args sealing outpoint `(zero32, 0)`. -/
def laW : RGBPPLock := ⟨zero32, 0⟩

/-- Witness data: a Bitcoin transaction consuming `(zero32, 0)`. -/
def btcSealedW : BTCTx := ⟨[7], [⟨(zero32, 0)⟩]⟩

theorem check_utxo_seal_characterization_witness :
    (check_utxo_seal laW btcSealedW = true ↔
      ∃ txin ∈ btcSealedW.inputs, txin.previous_output = (laW.btc_txid, laW.out_index)) ∧
    (∀ btc_tx2 : BTCTx, btcSealedW.inputs.Perm btc_tx2.inputs →
      check_utxo_seal laW btcSealedW = check_utxo_seal laW btc_tx2) ∧
    (∀ txin : TxIn, txin.previous_output ≠ (laW.btc_txid, laW.out_index) →
      check_utxo_seal laW ⟨btcSealedW.txid, txin :: btcSealedW.inputs⟩ =
        check_utxo_seal laW btcSealedW) :=
  check_utxo_seal_characterization laW btcSealedW

lemma inputs_are_committed_iff (tx : CkbTxView) (n : Nat) :
    inputs_are_committed tx n = true ↔
      ∀ i th, n ≤ i → tx.input_type_hashes[i]? = some th → th = none := by
  unfold inputs_are_committed
  rw [List.all_eq_true]
  constructor
  · intro h i th hni hget
    have hmem : th ∈ tx.input_type_hashes.drop n := by
      rw [List.mem_iff_getElem?]
      refine ⟨i - n, ?_⟩
      rw [List.getElem?_drop, Nat.add_sub_cancel' hni]
      exact hget
    simpa [Option.isNone_iff_eq_none] using h th hmem
  · intro h th hmem
    rw [List.mem_iff_getElem?] at hmem
    obtain ⟨j, hj⟩ := hmem
    rw [List.getElem?_drop] at hj
    have := h (n + j) th (Nat.le_add_right n j) hj
    simp [this]

lemma outputs_are_committed_iff (tx : CkbTxView) (n : Nat) :
    outputs_are_committed tx n = true ↔
      ∀ i o, n ≤ i → tx.outputs[i]? = some o → o.type_ = none := by
  unfold outputs_are_committed
  rw [List.all_eq_true]
  constructor
  · intro h i o hni hget
    have hmem : o ∈ tx.outputs.drop n := by
      rw [List.mem_iff_getElem?]
      refine ⟨i - n, ?_⟩
      rw [List.getElem?_drop, Nat.add_sub_cancel' hni]
      exact hget
    simpa [Option.isNone_iff_eq_none] using h o hmem
  · intro h o hmem
    rw [List.mem_iff_getElem?] at hmem
    obtain ⟨j, hj⟩ := hmem
    rw [List.getElem?_drop] at hj
    have := h (n + j) o (Nat.le_add_right n j) hj
    simp [this]

/-- C4: after the header checks, a type script carried by any input cell at
position at least `input_len`, or by any output at position at least
`output_len`, makes `check_btc_tx_commitment` fail with
`CommitmentMismatch`; the exclusivity booleans pass exactly when no such
input or output exists. -/
theorem commitment_exclusivity (env : Env) (config : RGBPPConfig) (rgbpp_script : Script)
    (btc_tx : BTCTx) (tx : CkbTxView) (uw : RGBPPUnlock) (c : Bytes)
    (hext : env.extract_commitment btc_tx = some c) (hv : uw.version = 0)
    (hil : uw.input_len ≠ 0) (hol : uw.output_len ≠ 0) :
    (((∃ i th, uw.input_len ≤ i ∧ tx.input_type_hashes[i]? = some (some th)) ∨
      (∃ i o, uw.output_len ≤ i ∧ tx.outputs[i]? = some o ∧ o.type_.isSome)) →
      check_btc_tx_commitment env config rgbpp_script btc_tx tx uw =
        .error .CommitmentMismatch) ∧
    (inputs_are_committed tx uw.input_len = true ↔
      ∀ i th, uw.input_len ≤ i → tx.input_type_hashes[i]? = some th → th = none) ∧
    (outputs_are_committed tx uw.output_len = true ↔
      ∀ i o, uw.output_len ≤ i → tx.outputs[i]? = some o → o.type_ = none) := by
  refine ⟨?_, inputs_are_committed_iff tx uw.input_len,
    outputs_are_committed_iff tx uw.output_len⟩
  intro hbad
  unfold check_btc_tx_commitment
  simp only [hext]
  rw [if_pos hv, if_neg hil, if_neg hol]
  rcases hbad with ⟨i, th, hle, hget⟩ | ⟨i, o, hle, hget, hty⟩
  · have hfalse : ¬ inputs_are_committed tx uw.input_len = true := by
      intro htrue
      have := (inputs_are_committed_iff tx uw.input_len).mp htrue i (some th) hle hget
      exact Option.noConfusion this
    rw [if_neg hfalse]
  · by_cases hic : inputs_are_committed tx uw.input_len = true
    · rw [if_pos hic]
      have hfalse : ¬ outputs_are_committed tx uw.output_len = true := by
        intro htrue
        have := (outputs_are_committed_iff tx uw.output_len).mp htrue i o hle hget
        rw [this] at hty
        exact Bool.noConfusion hty
      rw [if_neg hfalse]
    · rw [if_neg hic]

/-- Witness data: a transaction view whose second input cell carries a type
script. -/
def txBadInputW : CkbTxView :=
  ⟨[⟨0, ⟨zero32, 0⟩⟩], [none, some []], [⟨0, lockW, none⟩], [[]]⟩

theorem commitment_exclusivity_witness :
    check_btc_tx_commitment envW configW rgbppScriptW btcTxW txBadInputW uwW =
      .error .CommitmentMismatch :=
  (commitment_exclusivity envW configW rgbppScriptW btcTxW txBadInputW uwW streamW
    rfl rfl (by decide) (by decide)).left
    (Or.inl ⟨1, [], by decide, rfl⟩)

/-- C6: the commitment header checks — after a successful commitment
extraction, a version other than 0 fails with `UnknownCommitmentVersion`,
and a zero `input_len` or `output_len` fails with `BadBtcCommitment`
(these run before the exclusivity and digest checks, and a failed
extraction itself yields `BadBtcCommitment`). -/
theorem commitment_header_checks (env : Env) (config : RGBPPConfig) (rgbpp_script : Script)
    (btc_tx : BTCTx) (tx : CkbTxView) (uw : RGBPPUnlock) :
    (env.extract_commitment btc_tx = none →
      check_btc_tx_commitment env config rgbpp_script btc_tx tx uw =
        .error .BadBtcCommitment) ∧
    (∀ c, env.extract_commitment btc_tx = some c → uw.version ≠ 0 →
      check_btc_tx_commitment env config rgbpp_script btc_tx tx uw =
        .error .UnknownCommitmentVersion) ∧
    (∀ c, env.extract_commitment btc_tx = some c → uw.version = 0 →
      (uw.input_len = 0 ∨ uw.output_len = 0) →
      check_btc_tx_commitment env config rgbpp_script btc_tx tx uw =
        .error .BadBtcCommitment) := by
  refine ⟨?_, ?_, ?_⟩
  · intro hext
    unfold check_btc_tx_commitment
    simp only [hext]
  · intro c hext hv
    unfold check_btc_tx_commitment
    simp only [hext]
    rw [if_neg hv]
  · intro c hext hv hzero
    unfold check_btc_tx_commitment
    simp only [hext]
    rw [if_pos hv]
    by_cases hil : uw.input_len = 0
    · rw [if_pos hil]
    · rw [if_neg hil]
      rcases hzero with h | h
      · exact absurd h hil
      · rw [if_pos h]

/-- Witness data: an unlock witness with unsupported version 1. -/
def uwBadVersionW : RGBPPUnlock := ⟨1, 1, 1, [], []⟩

theorem commitment_header_checks_witness :
    check_btc_tx_commitment envW configW rgbppScriptW btcTxW txW uwBadVersionW =
      .error .UnknownCommitmentVersion :=
  (commitment_header_checks envW configW rgbppScriptW btcTxW txW uwBadVersionW).right.left
    streamW rfl (by decide)

/-- C7: `verify_unlock` runs its three steps in order with fail-fast
short-circuiting — a failed seal scan yields `UtxoSealMismatch` whatever
the oracle or commitment would do; with the seal found, the light-client
oracle is consulted at exactly
`(config.btc_lc_type_hash, btc_tx.txid, 0, unlock_witness.btc_tx_proof)`
and its failure propagates unchanged; with the oracle succeeding, the
result is that of `check_btc_tx_commitment`. -/
theorem verify_unlock_sequencing (env : Env) (config : RGBPPConfig) (rgbpp_script : Script)
    (lock_args : RGBPPLock) (uw : RGBPPUnlock) (btc_tx : BTCTx) (tx : CkbTxView) :
    (check_utxo_seal lock_args btc_tx = false →
      verify_unlock env config rgbpp_script lock_args uw btc_tx tx =
        .error .UtxoSealMismatch) ∧
    (∀ e, check_utxo_seal lock_args btc_tx = true →
      env.check_btc_tx_exists config.btc_lc_type_hash btc_tx.txid 0 uw.btc_tx_proof =
        .error e →
      verify_unlock env config rgbpp_script lock_args uw btc_tx tx = .error e) ∧
    (check_utxo_seal lock_args btc_tx = true →
      env.check_btc_tx_exists config.btc_lc_type_hash btc_tx.txid 0 uw.btc_tx_proof =
        .ok () →
      verify_unlock env config rgbpp_script lock_args uw btc_tx tx =
        check_btc_tx_commitment env config rgbpp_script btc_tx tx uw) := by
  refine ⟨?_, ?_, ?_⟩
  · intro hseal
    unfold verify_unlock
    rw [if_neg (by simp [hseal])]
  · intro e hseal horacle
    unfold verify_unlock
    rw [if_pos hseal]
    simp only [horacle]
  · intro hseal horacle
    unfold verify_unlock
    rw [if_pos hseal]
    simp only [horacle]

theorem verify_unlock_sequencing_witness :
    verify_unlock envW configW rgbppScriptW laW uwW btcSealedW txW =
      check_btc_tx_commitment envW configW rgbppScriptW btcSealedW txW uwW :=
  (verify_unlock_sequencing envW configW rgbppScriptW laW uwW btcSealedW txW).right.right
    (by decide) rfl

/-- Witness data: a lock with the RGB++ script's code identity but args that
do not parse as `RGBPPLock`. -/
def lockBadArgsW : Script := ⟨[9], 0, [1]⟩

/-- Witness data: a typed output guarded by `lockBadArgsW`. -/
def outBadParseW : CellOutput := ⟨0, lockBadArgsW, some ⟨[], 0, []⟩⟩

/-- Witness data: a transaction view whose only output is `outBadParseW`. -/
def txBadParseW : CkbTxView := ⟨[], [], [outBadParseW], [[]]⟩

/-- C2 counterexample: a typed output whose lock shares the RGB++ script's
code but whose args fail to parse makes `verify_outputs` fail with
`BadRGBPPLock`, not with `OutputCellWithUnknownLock` as the claim
states. -/
theorem verify_outputs_parse_failure_counterexample :
    is_script_code_equal outBadParseW.lock rgbppScriptW = true ∧
    RGBPPLock.fromSlice outBadParseW.lock.args = none ∧
    verify_outputs configW rgbppScriptW btcTxW txBadParseW = .error .BadRGBPPLock ∧
    verify_outputs configW rgbppScriptW btcTxW txBadParseW ≠
      .error .OutputCellWithUnknownLock := by
  refine ⟨rfl, rfl, rfl, ?_⟩
  decide

lemma verify_outputs_list_append_ok (config : RGBPPConfig) (rgbpp_lock : Script)
    (btc_tx : BTCTx) (os1 os2 : List CellOutput)
    (h : verify_outputs_list config rgbpp_lock btc_tx os1 = .ok ()) :
    verify_outputs_list config rgbpp_lock btc_tx (os1 ++ os2) =
      verify_outputs_list config rgbpp_lock btc_tx os2 := by
  induction os1 with
  | nil => rfl
  | cons a rest ih =>
    simp only [List.cons_append, verify_outputs_list] at h ⊢
    cases hva : verify_output_cell config rgbpp_lock btc_tx a with
    | ok u =>
      simp only [hva] at h ⊢
      exact ih h
    | error e =>
      simp only [hva] at h
      exact Except.noConfusion h

/-- C2 amended: in the Output Continuity Validator, for a typed output whose
predecessors in the output list all validate — if its lock shares the
spending RGB++ lock's code but its args fail to parse as `RGBPPLock`,
validation fails with `BadRGBPPLock` (not `OutputCellWithUnknownLock`);
if the args parse but the outpoint is not sealed and the time-lock branch
does not apply, or neither branch's code matches, validation fails with
`OutputCellWithUnknownLock`. -/
theorem verify_outputs_error_amended (config : RGBPPConfig) (rgbpp_lock : Script)
    (btc_tx : BTCTx) (tx : CkbTxView) (os1 : List CellOutput) (o : CellOutput)
    (os2 : List CellOutput) (hsplit : tx.outputs = os1 ++ o :: os2)
    (hpre : verify_outputs_list config rgbpp_lock btc_tx os1 = .ok ())
    (htype : o.type_.isSome = true) :
    (is_script_code_equal o.lock rgbpp_lock = true →
      RGBPPLock.fromSlice o.lock.args = none →
      verify_outputs config rgbpp_lock btc_tx tx = .error .BadRGBPPLock) ∧
    (is_btc_time_lock config o.lock = false →
      is_script_code_equal o.lock rgbpp_lock = true →
      ∀ la, RGBPPLock.fromSlice o.lock.args = some la →
      check_utxo_seal la btc_tx = false →
      verify_outputs config rgbpp_lock btc_tx tx = .error .OutputCellWithUnknownLock) ∧
    (is_btc_time_lock config o.lock = false →
      is_script_code_equal o.lock rgbpp_lock = false →
      verify_outputs config rgbpp_lock btc_tx tx = .error .OutputCellWithUnknownLock) := by
  obtain ⟨t, ht⟩ := Option.isSome_iff_exists.mp htype
  have hrw : verify_outputs config rgbpp_lock btc_tx tx =
      match verify_output_cell config rgbpp_lock btc_tx o with
      | .ok _ => verify_outputs_list config rgbpp_lock btc_tx os2
      | .error e => .error e := by
    unfold verify_outputs
    rw [hsplit, verify_outputs_list_append_ok config rgbpp_lock btc_tx os1 (o :: os2) hpre]
    rfl
  refine ⟨?_, ?_, ?_⟩
  · intro hcode hparse
    rw [hrw]
    unfold verify_output_cell
    simp only [ht, if_pos hcode, hparse]
  · intro htl hcode la hparse hseal
    rw [hrw]
    unfold verify_output_cell
    simp only [ht, if_pos hcode, hparse]
    rw [if_neg (by simp [hseal])]
    unfold check_time_lock_branch
    rw [if_neg (by simp [htl])]
  · intro htl hcode
    rw [hrw]
    unfold verify_output_cell
    simp only [ht]
    rw [if_neg (by simp [hcode])]
    unfold check_time_lock_branch
    rw [if_neg (by simp [htl])]

theorem verify_outputs_error_amended_witness :
    verify_outputs configW rgbppScriptW btcTxW txBadParseW = .error .BadRGBPPLock :=
  (verify_outputs_error_amended configW rgbppScriptW btcTxW txBadParseW [] outBadParseW []
    rfl rfl rfl).left rfl rfl

/-- Witness data: the group-input witness holding a 4-byte redirect to
input 1. -/
def groupWitsW : List WitnessArgs := [⟨some [1, 0, 0, 0]⟩]

/-- Witness data: the whole-input-set witnesses; index 1 has no lock
field. -/
def inputWitsW : List WitnessArgs := [⟨some [1, 0, 0, 0]⟩, ⟨none⟩]

/-- C5 counterexample: a 4-byte proof field redirecting to a witness whose
lock field is absent makes `fetch_unlock_from_witness` fail with
`ItemMissing`, not with `BadRGBPPUnlock` as the claim states. -/
theorem fetch_unlock_redirect_absent_counterexample :
    fetch_unlock_from_witness groupWitsW inputWitsW = .error .ItemMissing ∧
    fetch_unlock_from_witness groupWitsW inputWitsW ≠ .error .BadRGBPPUnlock := by
  refine ⟨rfl, ?_⟩
  decide

/-- C5 amended: when group input 0's proof has a lock field of exactly 4
bytes, it is read as a little-endian uint32 and the unlock witness is
re-fetched from the proof at that index of the whole input set — failing
with `ItemMissing` when that proof's lock field is absent and with
`BadRGBPPUnlock` when it does not parse as an `RGBPPUnlock`; a lock field
of any other length is parsed directly and never treated as a
redirect. -/
theorem fetch_unlock_resolution (gw iw : List WitnessArgs) (wa : WitnessArgs) (args : Bytes)
    (hga : gw[0]? = some wa) (hlock : wa.lock = some args) :
    (args.length = 4 →
      fetch_unlock_from_witness gw iw = load_unlock iw (leNum args)) ∧
    (args.length = 4 → ∀ wa2, iw[leNum args]? = some wa2 → wa2.lock = none →
      fetch_unlock_from_witness gw iw = .error .ItemMissing) ∧
    (args.length = 4 → ∀ wa2 args2, iw[leNum args]? = some wa2 → wa2.lock = some args2 →
      RGBPPUnlock.fromSlice args2 = none →
      fetch_unlock_from_witness gw iw = .error .BadRGBPPUnlock) ∧
    (args.length ≠ 4 →
      fetch_unlock_from_witness gw iw =
        match RGBPPUnlock.fromSlice args with
        | none => .error .BadRGBPPUnlock
        | some u => .ok u) := by
  have hfetch : ∀ r : Except Error RGBPPUnlock,
      (if args.length = 4 then load_unlock iw (leNum args)
       else match RGBPPUnlock.fromSlice args with
            | none => .error .BadRGBPPUnlock
            | some u => .ok u) = r →
      fetch_unlock_from_witness gw iw = r := by
    intro r h
    unfold fetch_unlock_from_witness
    simp only [hga, hlock]
    exact h
  refine ⟨?_, ?_, ?_, ?_⟩
  · intro h4
    exact hfetch _ (if_pos h4)
  · intro h4 wa2 hget hnone
    refine hfetch _ ?_
    rw [if_pos h4]
    unfold load_unlock
    simp only [hget, hnone]
  · intro h4 wa2 args2 hget hsome hparse
    refine hfetch _ ?_
    rw [if_pos h4]
    unfold load_unlock
    simp only [hget, hsome, hparse]
  · intro h4
    exact hfetch _ (if_neg h4)

theorem fetch_unlock_resolution_witness :
    fetch_unlock_from_witness groupWitsW inputWitsW = .error .ItemMissing :=
  (fetch_unlock_resolution groupWitsW inputWitsW ⟨some [1, 0, 0, 0]⟩ [1, 0, 0, 0]
    rfl rfl).right.left rfl ⟨none⟩ rfl rfl

/-- Two outputs that agree everywhere except possibly in the first 32 bytes
(the embedded txid) of their 36-byte lock args, with a lock whose code
matches the time-lock fallback or the RGB++ lock. -/
def txid_variant (config : RGBPPConfig) (rgbpp_script : Script) (o1 o2 : CellOutput) : Prop :=
  o1.capacity = o2.capacity ∧ o1.type_ = o2.type_ ∧
  o1.lock.code_hash = o2.lock.code_hash ∧ o1.lock.hash_type = o2.lock.hash_type ∧
  o1.lock.args.length = 36 ∧ o2.lock.args.length = 36 ∧
  o1.lock.args.drop 32 = o2.lock.args.drop 32 ∧
  (is_btc_time_lock config o1.lock = true ∨ is_script_code_equal rgbpp_script o1.lock = true)

lemma normalize_output_txid_variant (config : RGBPPConfig) (rgbpp_script : Script)
    (o1 o2 : CellOutput) (h : txid_variant config rgbpp_script o1 o2) :
    normalize_output config rgbpp_script o1 = normalize_output config rgbpp_script o2 := by
  obtain ⟨c1, ⟨ch1, hh1, a1⟩, t1⟩ := o1
  obtain ⟨c2, ⟨ch2, hh2, a2⟩, t2⟩ := o2
  obtain ⟨hc, ht, hch, hhh, hlen1, hlen2, hdrop, hbranch⟩ := h
  simp only at hc ht hch hhh hlen1 hlen2 hdrop
  subst hc
  subst ht
  subst hch
  subst hhh
  unfold normalize_output is_btc_time_lock is_script_code_equal BTCTimeLock.fromSlice
    RGBPPLock.fromSlice
  by_cases htl : ch1 = config.btc_time_lock_type_hash ∧ hh1 = 1
  · simp [htl, hlen1, hlen2, hdrop]
  · have hsce : rgbpp_script.code_hash = ch1 ∧ rgbpp_script.hash_type = hh1 := by
      rcases hbranch with hb | hb
      · exact absurd (by simpa [is_btc_time_lock] using hb) htl
      · simpa [is_script_code_equal] using hb
    simp [htl, hsce, hlen1, hlen2, hdrop]

lemma forall₂_zip_same {R : CellOutput → CellOutput → Prop} {l1 l2 : List CellOutput}
    (h : List.Forall₂ R l1 l2) (d : List Bytes) :
    List.Forall₂ (fun p1 p2 => R p1.1 p2.1 ∧ p1.2 = p2.2) (l1.zip d) (l2.zip d) := by
  induction h generalizing d with
  | nil => exact List.Forall₂.nil
  | cons hab hrest ih =>
    cases d with
    | nil => exact List.Forall₂.nil
    | cons dd ds => exact List.Forall₂.cons ⟨hab, rfl⟩ (ih ds)

lemma outputs_digest_bytes_congr (env : Env) (config : RGBPPConfig) (rgbpp_script : Script)
    (l1 l2 : List (CellOutput × Bytes))
    (h : List.Forall₂
      (fun p1 p2 => (p1.1 = p2.1 ∨ txid_variant config rgbpp_script p1.1 p2.1) ∧ p1.2 = p2.2)
      l1 l2) :
    outputs_digest_bytes env config rgbpp_script l1 =
      outputs_digest_bytes env config rgbpp_script l2 := by
  induction h with
  | nil => rfl
  | @cons p1 p2 r1 r2 hp hrest ih =>
    obtain ⟨ho, hd⟩ := hp
    obtain ⟨o1, d1⟩ := p1
    obtain ⟨o2, d2⟩ := p2
    simp only at ho hd
    subst hd
    have hnorm : normalize_output config rgbpp_script o1 = normalize_output config rgbpp_script o2 := by
      rcases ho with rfl | hv
      · rfl
      · exact normalize_output_txid_variant config rgbpp_script o1 o2 hv
    simp only [outputs_digest_bytes]
    rw [hnorm, ih]

/-- C8: two primary transactions identical except in the embedded txid field
of the lock args of outputs whose lock code matches the RGB++ lock or the
time-lock fallback recompute the same commitment digest — the txid is
zeroed before the output enters the digest stream. -/
theorem commitment_txid_invariance (env : Env) (config : RGBPPConfig) (rgbpp_script : Script)
    (uw : RGBPPUnlock) (tx1 tx2 : CkbTxView)
    (hin : tx1.inputs = tx2.inputs) (hdata : tx1.outputs_data = tx2.outputs_data)
    (houts : List.Forall₂ (fun o1 o2 => o1 = o2 ∨ txid_variant config rgbpp_script o1 o2)
      tx1.outputs tx2.outputs) :
    recomputed_commitment env config rgbpp_script uw tx1 =
      recomputed_commitment env config rgbpp_script uw tx2 := by
  have hzip := forall₂_zip_same houts tx1.outputs_data
  rw [hdata] at hzip
  have htake := List.forall₂_take uw.output_len hzip
  have hob := outputs_digest_bytes_congr env config rgbpp_script _ _ htake
  unfold recomputed_commitment commitment_stream
  rw [hdata, hin, hob]

/-- Witness data: an RGB++-locked output sealing txid `1…1`. -/
def lockTxid1W : Script := ⟨[9], 0, List.replicate 32 (1 : Byte) ++ u32LE 5⟩

/-- Witness data: the same output re-sealed to txid `2…2`. -/
def lockTxid2W : Script := ⟨[9], 0, List.replicate 32 (2 : Byte) ++ u32LE 5⟩

/-- Witness data: transaction view with the txid-`1…1` output. -/
def txVar1W : CkbTxView := ⟨[], [], [⟨0, lockTxid1W, none⟩], [[]]⟩

/-- Witness data: transaction view with the txid-`2…2` output. -/
def txVar2W : CkbTxView := ⟨[], [], [⟨0, lockTxid2W, none⟩], [[]]⟩

theorem commitment_txid_invariance_witness :
    recomputed_commitment envW configW rgbppScriptW uwW txVar1W =
      recomputed_commitment envW configW rgbppScriptW uwW txVar2W :=
  commitment_txid_invariance envW configW rgbppScriptW uwW txVar1W txVar2W rfl rfl
    (List.Forall₂.cons
      (Or.inr ⟨rfl, rfl, rfl, rfl, by decide, by decide, by decide, Or.inr rfl⟩)
      List.Forall₂.nil)

/-- C9: declared lengths at least the actual input and output counts are
never rejected as such — the beyond-prefix exclusivity checks pass
vacuously, and the digest stream covers exactly the inputs and
(output, data) pairs that exist, fewer entries than the declared counts
announce. -/
theorem commitment_oversized_lengths (env : Env) (config : RGBPPConfig) (rgbpp_script : Script)
    (tx : CkbTxView) (uw : RGBPPUnlock)
    (hith : tx.input_type_hashes.length ≤ uw.input_len)
    (hin : tx.inputs.length ≤ uw.input_len)
    (hout : tx.outputs.length ≤ uw.output_len) :
    inputs_are_committed tx uw.input_len = true ∧
    outputs_are_committed tx uw.output_len = true ∧
    inputs_digest_bytes tx.inputs uw.input_len =
      (tx.inputs.map fun i => i.previous_output.serialize).flatten ∧
    commitment_stream env config rgbpp_script uw tx =
      match outputs_digest_bytes env config rgbpp_script (tx.outputs.zip tx.outputs_data) with
      | .error e => .error e
      | .ok os =>
        .ok (RGBPP_TAG ++ u16LE uw.version ++ [u8byte uw.input_len, u8byte uw.output_len]
          ++ (tx.inputs.map fun i => i.previous_output.serialize).flatten ++ os) := by
  have hzle : (tx.outputs.zip tx.outputs_data).length ≤ uw.output_len := by
    rw [List.length_zip]
    exact le_trans (Nat.min_le_left _ _) hout
  refine ⟨?_, ?_, ?_, ?_⟩
  · unfold inputs_are_committed
    rw [List.drop_eq_nil_of_le hith]
    rfl
  · unfold outputs_are_committed
    rw [List.drop_eq_nil_of_le hout]
    rfl
  · unfold inputs_digest_bytes
    rw [List.take_of_length_le hin]
  · unfold commitment_stream inputs_digest_bytes
    rw [List.take_of_length_le hin, List.take_of_length_le hzle]

/-- Witness data: an unlock witness declaring far more inputs and outputs
than the transaction has. -/
def uwOversizedW : RGBPPUnlock := ⟨0, 5, 7, [], []⟩

theorem commitment_oversized_lengths_witness :
    inputs_are_committed txW uwOversizedW.input_len = true ∧
    outputs_are_committed txW uwOversizedW.output_len = true :=
  ⟨(commitment_oversized_lengths envW configW rgbppScriptW txW uwOversizedW
      (by decide) (by decide) (by decide)).1,
   (commitment_oversized_lengths envW configW rgbppScriptW txW uwOversizedW
      (by decide) (by decide) (by decide)).2.1⟩

lemma outputs_digest_bytes_prefix_error (env : Env) (config : RGBPPConfig)
    (rgbpp_script : Script) (os1 : List (CellOutput × Bytes)) (o : CellOutput) (d : Bytes)
    (os2 : List (CellOutput × Bytes)) (e : Error)
    (hpre : ∀ q ∈ os1, ∃ o2, normalize_output config rgbpp_script q.1 = .ok o2)
    (he : normalize_output config rgbpp_script o = .error e) :
    outputs_digest_bytes env config rgbpp_script (os1 ++ (o, d) :: os2) = .error e := by
  induction os1 with
  | nil =>
    simp only [List.nil_append, outputs_digest_bytes, he]
  | cons q rest ih =>
    obtain ⟨o2, h2⟩ := hpre q (List.mem_cons_self q rest)
    have ihe := ih fun q hq => hpre q (List.mem_cons_of_mem _ hq)
    obtain ⟨oq, dq⟩ := q
    simp only at h2
    simp only [List.cons_append, outputs_digest_bytes, h2, List.append_eq, ihe]

/-- C10: during commitment recomputation, an output inside the committed
prefix whose lock matches the time-lock fallback but whose args fail to
parse aborts the whole check with `BadBTCTimeLock`, and one whose lock
matches the RGB++ lock (the time-lock branch, tested first, not applying)
with unparsable args aborts with `BadRGBPPLock` — the output is neither
skipped nor hashed unchanged. -/
theorem commitment_digest_parse_failures (env : Env) (config : RGBPPConfig)
    (rgbpp_script : Script) (btc_tx : BTCTx) (tx : CkbTxView) (uw : RGBPPUnlock) (c : Bytes)
    (os1 : List (CellOutput × Bytes)) (o : CellOutput) (d : Bytes)
    (os2 : List (CellOutput × Bytes))
    (hext : env.extract_commitment btc_tx = some c) (hv : uw.version = 0)
    (hil : uw.input_len ≠ 0) (hol : uw.output_len ≠ 0)
    (hic : inputs_are_committed tx uw.input_len = true)
    (hoc : outputs_are_committed tx uw.output_len = true)
    (hsplit : (tx.outputs.zip tx.outputs_data).take uw.output_len = os1 ++ (o, d) :: os2)
    (hpre : ∀ q ∈ os1, ∃ o2, normalize_output config rgbpp_script q.1 = .ok o2) :
    (is_btc_time_lock config o.lock = true → BTCTimeLock.fromSlice o.lock.args = none →
      check_btc_tx_commitment env config rgbpp_script btc_tx tx uw =
        .error .BadBTCTimeLock) ∧
    (is_btc_time_lock config o.lock = false →
      is_script_code_equal rgbpp_script o.lock = true →
      RGBPPLock.fromSlice o.lock.args = none →
      check_btc_tx_commitment env config rgbpp_script btc_tx tx uw =
        .error .BadRGBPPLock) := by
  have hmain : ∀ e : Error, normalize_output config rgbpp_script o = .error e →
      check_btc_tx_commitment env config rgbpp_script btc_tx tx uw = .error e := by
    intro e he
    have hstream : commitment_stream env config rgbpp_script uw tx = .error e := by
      unfold commitment_stream
      rw [hsplit, outputs_digest_bytes_prefix_error env config rgbpp_script os1 o d os2 e
        hpre he]
    unfold check_btc_tx_commitment
    simp only [hext]
    rw [if_pos hv, if_neg hil, if_neg hol, if_pos hic, if_pos hoc]
    simp only [hstream]
  constructor
  · intro htl hparse
    refine hmain _ ?_
    unfold normalize_output
    rw [if_pos htl]
    simp only [hparse]
  · intro htl hsce hparse
    refine hmain _ ?_
    unfold normalize_output
    rw [if_neg (by simp [htl]), if_pos hsce]
    simp only [hparse]

/-- Witness data: a time-lock-coded lock with unparsable (empty) args. -/
def lockTLBadW : Script := ⟨[3], 1, []⟩

/-- Witness data: a transaction view whose only output carries
`lockTLBadW`. -/
def txTLBadW : CkbTxView := ⟨[⟨0, ⟨zero32, 0⟩⟩], [none], [⟨0, lockTLBadW, none⟩], [[]]⟩

theorem commitment_digest_parse_failures_witness :
    check_btc_tx_commitment envW configW rgbppScriptW btcTxW txTLBadW uwW =
      .error .BadBTCTimeLock :=
  (commitment_digest_parse_failures envW configW rgbppScriptW btcTxW txTLBadW uwW streamW
    [] ⟨0, lockTLBadW, none⟩ [] [] rfl rfl (by decide) (by decide) rfl rfl rfl
    (fun q hq => absurd hq (List.not_mem_nil q))).left rfl rfl

end RGBPP
